import Mathlib

/-!
Verification development for the stock-pulse quote pipeline.

The definitions below are a shallow embedding of the TypeScript sources:
the YahooFinance client (cookie/crumb bootstrap, snapshot fetch with a
bounded retry loop, response parsing with JavaScript falsy-fallback
semantics), and the extension's WebSocket message handler (base64 decode,
protobuf frame, merge into the cached quote record).  JavaScript numbers
that only flow through copies and truthiness tests are modelled as Int;
optional / possibly-undefined JSON fields are modelled as Option; a JS
runtime TypeError (property access on undefined or null) is modelled as
an explicit error value.
-/

namespace StockPulse

/-- JavaScript truthiness of a possibly-undefined string: undefined, null
and the empty string are falsy. -/
def truthyS : Option String → Bool
  | some s => s ≠ ""
  | none => false

/-- JavaScript `x || d` where `x` is a possibly-undefined string and the
result is used as a string (the default `d` is a string literal). -/
def jsOrStr (x : Option String) (d : String) : String :=
  match x with
  | some s => if s = "" then d else s
  | none => d

/-- JavaScript `x || d` where `x` is a possibly-undefined string and the
default may itself be null/undefined. -/
def jsOrStrN (x : Option String) (d : Option String) : Option String :=
  match x with
  | some s => if s = "" then d else some s
  | none => d

/-- JavaScript `x || d` where `x` is a possibly-undefined number (zero is
falsy) and the default is a number. -/
def jsOrNum (x : Option Int) (d : Int) : Int :=
  match x with
  | some v => if v = 0 then d else v
  | none => d

/-- JavaScript `x || d` where `x` is a possibly-undefined number and the
default may itself be null/undefined. -/
def jsOrNumN (x : Option Int) (d : Option Int) : Option Int :=
  match x with
  | some v => if v = 0 then d else some v
  | none => d

/-- Errors thrown by the embedded code. -/
inductive JsErr where
  /-- JS runtime TypeError: property access on undefined or null. -/
  | typeError
  /-- `throw new Error('Unexpected response format')` in the variant parser. -/
  | formatErr
  /-- `throw new Error('YahooFinance is not initialized. ...')`. -/
  | notInitializedErr
  /-- `handleError('Failed to fetch quote', ...)` rethrow in the variant. -/
  | fetchQuoteErr
  /-- `throw new Error('Failed to fetch data after multiple attempts')`. -/
  | consolidatedErr
  /-- `throw new Error('YahooFinance initialization failed')`. -/
  | initFailedErr
  /-- `throw new Error('Cookie not set')` in fetchCrumb. -/
  | cookieNotSetErr
  /-- Axios rejection: validateStatus returned false for the response. -/
  | axiosErr
  deriving DecidableEq, Repr

/-- A property access on undefined or null raises TypeError; embedded
code spells this out by matching on the optional receiver and producing
`Except.error JsErr.typeError` in the none case. -/
def jsTypeError {α : Type} : Except JsErr α := Except.error JsErr.typeError

deriving instance DecidableEq for Except

/-- StockPriceData from StockModel.ts.  `current` is typed `number` but the
live-feed merge assigns it `content.price`, which can be undefined at
runtime, so it is modelled as an optional number.  `day_volume` is typed
`number | null`; `updated_at` is a `Date | null` modelled as an optional
millisecond timestamp (none also stands for an Invalid Date). -/
structure StockPriceData where
  current : Option Int
  day_high : Int
  day_low : Int
  previous_close : Int
  day_volume : Option Int
  updated_at : Option Int
  deriving DecidableEq, Repr

/-- StockInformation from StockModel.ts. -/
structure StockInformation where
  type : String
  symbol : String
  name : String
  timezone : String
  currency : Option String
  exchange : Option String
  sector : Option String
  price : StockPriceData
  deriving DecidableEq, Repr

/-- Decoded streaming frame, the JSON view of the protobuf PricingData
message restricted to the fields the message handler reads.  protobufjs
`toJSON` omits fields holding their default value, so every field is
optional; a present numeric field is therefore never the wire default. -/
structure PricingFrame where
  id : String
  price : Option Int
  time : Option Int
  dayHigh : Option Int
  dayLow : Option Int
  dayVolume : Option Int
  deriving DecidableEq, Repr

/-- The live-feed merge applied to the cached price record by the
WebSocket message handler:
`current = content.price` (unconditional),
`day_high = content.dayHigh || old`, `day_low = content.dayLow || old`,
`day_volume = content.dayVolume || old`,
`updated_at = new Date(parseInt(content.time))` (unconditional;
an absent time yields an Invalid Date, modelled as none). -/
def mergeFrame (ps : StockPriceData) (f : PricingFrame) : StockPriceData :=
  { current := f.price
    day_high := jsOrNum f.dayHigh ps.day_high
    day_low := jsOrNum f.dayLow ps.day_low
    previous_close := ps.previous_close
    day_volume := jsOrNumN f.dayVolume ps.day_volume
    updated_at := f.time }

/-- Module-level mutable state of the extension read by the message
handler: the cached quote record (possibly not yet fetched), whether the
status bar exists, and whether the WebSocket connection is open. -/
structure ExtState where
  wsOpen : Bool
  hasStatusBar : Bool
  stockInfo : Option StockInformation
  deriving DecidableEq, Repr

/-- Body of the message handler after a successful decode: if the cached
record is missing, log and return; if the status bar exists and the frame
id equals the subscribed ticker, merge the frame into the price record;
otherwise do nothing. -/
def processFrame (ticker : String) (content : PricingFrame) (st : ExtState) :
    ExtState :=
  match st.stockInfo with
  | none => st
  | some info =>
    if st.hasStatusBar ∧ content.id = ticker then
      let info2 : StockInformation :=
        { info with price := mergeFrame info.price content }
      { st with stockInfo := some info2 }
    else st

/-- The quoteType module of a quoteSummary result.  `quoteType` and
`symbol` are read without a fallback in the parser; the other fields are
read through `||` chains, so only their possible absence matters. -/
structure QuoteTypeModule where
  quoteType : String
  symbol : String
  longName : Option String
  shortName : Option String
  timeZoneFullName : Option String
  deriving DecidableEq, Repr

/-- The summaryDetail module of a quoteSummary result. -/
structure SummaryDetail where
  currency : Option String
  dayHigh : Option Int
  dayLow : Option Int
  regularMarketPreviousClose : Option Int
  deriving DecidableEq, Repr

/-- The assetProfile module of a quoteSummary result. -/
structure AssetProfile where
  sector : Option String
  deriving DecidableEq, Repr

/-- One element of the quoteSummary result list.  The quoteType and
summaryDetail modules are accessed without optional chaining, so their
absence raises TypeError; assetProfile is accessed with `?.`. -/
structure QuoteResult where
  quoteType : Option QuoteTypeModule
  summaryDetail : Option SummaryDetail
  assetProfile : Option AssetProfile
  deriving DecidableEq, Repr

/-- The meta object of a chart result. -/
structure ChartMeta where
  fullExchangeName : Option String
  exchangeName : Option String
  regularMarketPrice : Option Int
  regularMarketVolume : Option Int
  regularMarketTime : Option Int
  deriving DecidableEq, Repr

/-- One element of the chart result list; `meta` is accessed without
optional chaining. -/
structure ChartResult where
  meta : Option ChartMeta
  deriving DecidableEq, Repr

/-- Body of the quote-metadata response: each JSON level may be missing
(undefined or null). -/
structure QuoteSummaryObj where
  result : Option (List QuoteResult)
  deriving DecidableEq, Repr

/-- Axios response of the quote-metadata request.  `data := none` models a
body that is null/undefined; a level set to none inside models a missing
or null member at that level. -/
structure QuoteResponse where
  status : Nat
  data : Option QuoteSummaryObj
  deriving DecidableEq, Repr

/-- Body of the price-chart response. -/
structure ChartObj where
  result : Option (List ChartResult)
  deriving DecidableEq, Repr

/-- Axios response of the price-chart request. -/
structure ChartResponse where
  status : Nat
  data : Option ChartObj
  deriving DecidableEq, Repr

/-- JS optional chain `quoteResponse.data?.quoteSummary?.result`: never
throws, yields undefined when any level is missing.  The embedded body
collapses `data` and `data.quoteSummary` into one optional level, which
is faithful because the parsers only ever read `data.quoteSummary`. -/
def chainQ (q : QuoteResponse) : Option (List QuoteResult) :=
  q.data.bind (fun b => b.result)

/-- JS optional chain `priceResponse.data?.chart?.result`. -/
def chainP (p : ChartResponse) : Option (List ChartResult) :=
  p.data.bind (fun b => b.result)

/-- JS expression `quoteResponse.data.quoteSummary.result[0]` without
optional chaining: TypeError when a level is missing, undefined (`none`)
when the list is empty. -/
def chainQE (q : QuoteResponse) : Except JsErr (Option QuoteResult) :=
  match q.data with
  | none => jsTypeError
  | some b =>
    match b.result with
    | none => jsTypeError
    | some r => Except.ok r.head?

/-- JS expression `priceResponse.data.chart.result[0]` without optional
chaining. -/
def chainPE (p : ChartResponse) : Except JsErr (Option ChartResult) :=
  match p.data with
  | none => jsTypeError
  | some b =>
    match b.result with
    | none => jsTypeError
    | some r => Except.ok r.head?

/-- parseStockInformation from the main YahooFinance class: dereferences
`data.quoteSummary.result[0]` and `data.chart.result[0]` with no guard,
then builds the record with JS `||` fallbacks.  Every missing level or a
missing quoteType / summaryDetail / meta module raises TypeError. -/
def parseStockInformation (q : QuoteResponse) (p : ChartResponse) :
    Except JsErr StockInformation :=
  match chainQE q with
  | Except.error e => Except.error e
  | Except.ok qr0 =>
  match chainPE p with
  | Except.error e => Except.error e
  | Except.ok pr0 =>
  match qr0 with
  | none => jsTypeError
  | some quoteResult =>
  match pr0 with
  | none => jsTypeError
  | some priceResult =>
  match quoteResult.quoteType with
  | none => jsTypeError
  | some qt =>
  match quoteResult.summaryDetail with
  | none => jsTypeError
  | some sd =>
  match priceResult.meta with
  | none => jsTypeError
  | some meta =>
  Except.ok
    { type := qt.quoteType
      symbol := qt.symbol
      name := jsOrStr qt.longName (jsOrStr qt.shortName "")
      timezone := jsOrStr qt.timeZoneFullName ""
      currency := jsOrStrN sd.currency none
      exchange := jsOrStrN meta.fullExchangeName
        (jsOrStrN meta.exchangeName none)
      sector :=
        match quoteResult.assetProfile with
        | some ap => jsOrStrN ap.sector none
        | none => none
      price :=
        { current := some (jsOrNum meta.regularMarketPrice 0)
          day_high := jsOrNum sd.dayHigh 0
          day_low := jsOrNum sd.dayLow 0
          previous_close := jsOrNum sd.regularMarketPreviousClose 0
          day_volume := some (jsOrNum meta.regularMarketVolume 0)
          updated_at := meta.regularMarketTime.map (fun t => t * 1000) } }

/-- Price sub-record of the earlier StockModel revision, paired with the
variant YahooFinance class: no day_volume and no updated_at fields. -/
structure StockPriceDataV0 where
  current : Int
  day_high : Int
  day_low : Int
  previous_close : Int
  deriving DecidableEq, Repr

/-- Quote record of the earlier StockModel revision. -/
structure StockInformationV0 where
  type : String
  symbol : String
  name : String
  timezone : String
  currency : Option String
  exchange : Option String
  sector : Option String
  price : StockPriceDataV0
  deriving DecidableEq, Repr

/-- parseStockInformation from the variant YahooFinance class: guards on
`status === 200 && data?.quoteSummary?.result` for both responses and
throws Error('Unexpected response format') when the guard fails.  The
guard passes on an empty result list (an empty JS array is truthy), after
which dereferencing `result[0]` raises TypeError. -/
def parseStockInformationV (q : QuoteResponse) (p : ChartResponse) :
    Except JsErr StockInformationV0 :=
  if q.status = 200 ∧ (chainQ q).isSome ∧ p.status = 200 ∧ (chainP p).isSome
  then
    match chainQE q with
    | Except.error e => Except.error e
    | Except.ok qr0 =>
    match chainPE p with
    | Except.error e => Except.error e
    | Except.ok pr0 =>
    match qr0 with
    | none => jsTypeError
    | some quoteResult =>
    match pr0 with
    | none => jsTypeError
    | some priceResult =>
    match quoteResult.quoteType with
    | none => jsTypeError
    | some qt =>
    match quoteResult.summaryDetail with
    | none => jsTypeError
    | some sd =>
    match priceResult.meta with
    | none => jsTypeError
    | some meta =>
    Except.ok
      { type := qt.quoteType
        symbol := qt.symbol
        name := jsOrStr qt.longName (jsOrStr qt.shortName "")
        timezone := jsOrStr qt.timeZoneFullName ""
        currency := jsOrStrN sd.currency none
        exchange := jsOrStrN meta.fullExchangeName
          (jsOrStrN meta.exchangeName none)
        sector :=
          match quoteResult.assetProfile with
          | some ap => jsOrStrN ap.sector none
          | none => none
        price :=
          { current := jsOrNum meta.regularMarketPrice 0
            day_high := jsOrNum sd.dayHigh 0
            day_low := jsOrNum sd.dayLow 0
            previous_close := jsOrNum sd.regularMarketPreviousClose 0 } }
  else Except.error JsErr.formatErr

/-- Instance fields of the YahooFinance class that getQuote reads:
`cookie` and `crumb`, both `string | null`. -/
structure YFState where
  cookie : Option String
  crumb : Option String
  deriving DecidableEq, Repr

/-- getQuote of the main YahooFinance class, taken at the point where both
transport requests have delivered responses.  It throws the
not-initialized error when cookie or crumb is null or empty (JS `!` on a
string), returns null on a 404 quote-metadata status before the chart
response is even looked at, and otherwise parses.  The instance state is
returned to express that this path performs no mutation. -/
def getQuote (st : YFState) (q : QuoteResponse) (p : ChartResponse) :
    YFState × Except JsErr (Option StockInformation) :=
  if truthyS st.crumb ∧ truthyS st.cookie then
    if q.status = 404 then (st, Except.ok none)
    else (st, (parseStockInformation q p).map some)
  else (st, Except.error JsErr.notInitializedErr)

/-- getQuote of the variant YahooFinance class: same guard and 404 path,
but the parse runs inside try/catch whose handler rethrows
Error('Failed to fetch quote'). -/
def getQuoteV (st : YFState) (q : QuoteResponse) (p : ChartResponse) :
    Except JsErr (Option StockInformationV0) :=
  if truthyS st.crumb ∧ truthyS st.cookie then
    if q.status = 404 then Except.ok none
    else
      match parseStockInformationV q p with
      | Except.ok si => Except.ok (some si)
      | Except.error _ => Except.error JsErr.fetchQuoteErr
  else Except.error JsErr.notInitializedErr

/-- Outcome of one axios GET inside the retry loop: either a delivered
response (validateStatus admits 2xx and 404, so a 404 arrives here as a
normal response and never throws), or a thrown transient fault, tagged
with whether the re-initialization performed in the catch block itself
succeeds. -/
inductive AttemptOutcome (ρ : Type) where
  | ok (resp : ρ)
  | netFail (initOk : Bool)
  deriving DecidableEq, Repr

/-- Body of the `while (attempts < maxAttempts)` loop of request():
`i` is the index of the next axios GET, the fuel is `maxAttempts -
attempts`.  Returns the result together with the number of GETs actually
issued.  On a thrown GET the catch block runs initialize(); when that
itself throws, its error propagates out of request immediately. -/
def requestAux {ρ : Type} (outs : Nat → AttemptOutcome ρ) :
    Nat → Nat → Except JsErr ρ × Nat
  | _, 0 => (Except.error JsErr.consolidatedErr, 0)
  | i, Nat.succ fuel =>
    match outs i with
    | AttemptOutcome.ok r => (Except.ok r, 1)
    | AttemptOutcome.netFail true =>
      let r2 := requestAux outs (i + 1) fuel
      (r2.1, r2.2 + 1)
    | AttemptOutcome.netFail false => (Except.error JsErr.initFailedErr, 1)

/-- request() of the main YahooFinance class: maxAttempts = 3. -/
def request {ρ : Type} (outs : Nat → AttemptOutcome ρ) :
    Except JsErr ρ × Nat :=
  requestAux outs 0 3

/-- Response of the cookie endpoint: validateStatus accepts exactly 404,
and headers['set-cookie']?.[0] may be absent. -/
structure CookieResponse where
  status : Nat
  setCookie : Option String
  deriving DecidableEq, Repr

/-- Response of the crumb endpoint: the default axios validateStatus
(2xx) applies, and the body is the crumb verbatim. -/
structure CrumbResponse where
  status : Nat
  body : String
  deriving DecidableEq, Repr

/-- fetchCookie of the main class: axios throws unless the status is
exactly 404; otherwise the first set-cookie header, else ''. -/
def fetchCookie (r : CookieResponse) : Except JsErr String :=
  if r.status = 404 then Except.ok (jsOrStr r.setCookie "")
  else Except.error JsErr.axiosErr

/-- fetchCrumb of the main class: throws 'Cookie not set' when the cookie
field is falsy, then returns the crumb body on a 2xx status, and lets
axios throw otherwise. -/
def fetchCrumb (cookie : Option String) (r : CrumbResponse) :
    Except JsErr String :=
  if truthyS cookie then
    if 200 ≤ r.status ∧ r.status < 300 then Except.ok r.body
    else Except.error JsErr.axiosErr
  else Except.error JsErr.cookieNotSetErr

/-- initialize() of the main class: `this.cookie = await fetchCookie();
this.crumb = await fetchCrumb();` inside try/catch; the catch rethrows
'YahooFinance initialization failed'.  Assignments already performed
before a throw are kept (the cookie field can be updated even when the
crumb step fails). -/
def initializeInstance (st : YFState) (cr : CookieResponse)
    (cb : CrumbResponse) : YFState × Option JsErr :=
  match fetchCookie cr with
  | Except.error _ => (st, some JsErr.initFailedErr)
  | Except.ok c =>
    let st1 : YFState := { st with cookie := some c }
    match fetchCrumb st1.cookie cb with
    | Except.error _ => (st1, some JsErr.initFailedErr)
    | Except.ok cm => ({ st1 with crumb := some cm }, none)

/-- Value of one base64 alphabet character; none for a character outside
the alphabet. -/
def b64Val (c : Char) : Option Nat :=
  if 'A' ≤ c ∧ c ≤ 'Z' then some (c.toNat - 65)
  else if 'a' ≤ c ∧ c ≤ 'z' then some (c.toNat - 71)
  else if '0' ≤ c ∧ c ≤ '9' then some (c.toNat + 4)
  else if c = '+' then some 62
  else if c = '/' then some 63
  else none

/-- Decode a padding-stripped base64 character list into bytes; fails on a
character outside the alphabet or on a leftover length of 1. -/
def b64Chunks : List Char → Option (List Nat)
  | [] => some []
  | [_] => none
  | [a, b] => do
    let va ← b64Val a
    let vb ← b64Val b
    pure [va * 4 + vb / 16]
  | [a, b, c] => do
    let va ← b64Val a
    let vb ← b64Val b
    let vc ← b64Val c
    pure [va * 4 + vb / 16, vb % 16 * 16 + vc / 4]
  | a :: b :: c :: d :: rest => do
    let va ← b64Val a
    let vb ← b64Val b
    let vc ← b64Val c
    let vd ← b64Val d
    let tail ← b64Chunks rest
    pure ([va * 4 + vb / 16, vb % 16 * 16 + vc / 4, vc % 4 * 64 + vd]
      ++ tail)

/-- Strip up to two trailing '=' padding characters. -/
def b64StripPad (cs : List Char) : List Char :=
  match cs.reverse with
  | '=' :: '=' :: rest => rest.reverse
  | '=' :: rest => rest.reverse
  | _ => cs

/-- JS atob applied to an inbound text frame: base64-decode the string to
a byte list, or fail (InvalidCharacterError) on input outside the base64
grammar. -/
def atob (s : String) : Option (List Nat) :=
  b64Chunks (b64StripPad s.data)

/-- The extension's WebSocket 'message' handler: the whole body (atob,
protobuf decode, merge, status-bar update) runs in a try/catch whose
handler only logs.  The protobuf layer is a parameter `protoDecode` from
bytes to an optional frame (none models a decode throw).  On any decode
failure the state — connection flag included — is returned unchanged. -/
def handleWsMessage (protoDecode : List Nat → Option PricingFrame)
    (ticker : String) (data : String) (st : ExtState) : ExtState :=
  match (atob data).bind protoDecode with
  | none => st
  | some content => processFrame ticker content st

/-- Per-instance connection bookkeeping for subscribeToStockPrice and
dispose: `conns` lists every WebSocket this instance ever created (true =
still open), `ws` is the index the instance field currently references. -/
structure FeedState where
  conns : List Bool
  ws : Option Nat
  deriving DecidableEq, Repr

/-- Mark a connection closed; closing an already-closed connection is a
no-op on the open-flag level. -/
def closeAt (l : List Bool) (i : Nat) : List Bool := l.set i false

/-- subscribeToStockPrice: `if (this.webSocket) this.webSocket.close();
this.webSocket = new WebSocket(...)`.  The old connection (when any) is
closed before the new one is created and referenced. -/
def subscribeFeed (st : FeedState) : FeedState :=
  let conns1 :=
    match st.ws with
    | some i => closeAt st.conns i
    | none => st.conns
  { conns := conns1 ++ [true], ws := some conns1.length }

/-- dispose(): closes the referenced connection if any; the reference is
not cleared. -/
def disposeFeed (st : FeedState) : FeedState :=
  match st.ws with
  | some i => { st with conns := closeAt st.conns i }
  | none => st

/-- Environment event: some connection is closed from the remote side. -/
def remoteCloseFeed (st : FeedState) (i : Nat) : FeedState :=
  { st with conns := closeAt st.conns i }

/-- Operations that can change the connection bookkeeping. -/
inductive FeedOp where
  | subscribe
  | dispose
  | remoteClose (i : Nat)
  deriving DecidableEq, Repr

/-- One step of the connection state machine. -/
def stepFeed (st : FeedState) (op : FeedOp) : FeedState :=
  match op with
  | FeedOp.subscribe => subscribeFeed st
  | FeedOp.dispose => disposeFeed st
  | FeedOp.remoteClose i => remoteCloseFeed st i

/-- Initial state: no connection ever created, null reference. -/
def initFeed : FeedState := { conns := [], ws := none }

/-- Run a sequence of operations from the initial state. -/
def runFeed (ops : List FeedOp) : FeedState :=
  List.foldl stepFeed initFeed ops

/-- Number of simultaneously open connections held by the instance. -/
def openCount (st : FeedState) : Nat := st.conns.count true

/-- Invariant of the connection bookkeeping: every open connection is the
one currently referenced, and the reference is always in range. -/
def FeedInv (st : FeedState) : Prop :=
  (∀ j, st.conns.get? j = some true → st.ws = some j)
  ∧ (∀ i, st.ws = some i → i < st.conns.length)

/-- Identity fields of a quote record (everything except the price
sub-record). -/
def quoteIdentity (si : StockInformation) :
    String × String × String × String × Option String × Option String ×
      Option String :=
  (si.type, si.symbol, si.name, si.timezone, si.currency, si.exchange,
    si.sector)

/-- Quote-metadata response with success status and a singleton result
list built from the three modules. -/
def mkQuoteResponse (qt : QuoteTypeModule) (sd : SummaryDetail)
    (ap : Option AssetProfile) : QuoteResponse :=
  let r : QuoteResult :=
    { quoteType := some qt, summaryDetail := some sd, assetProfile := ap }
  { status := 200, data := some { result := some [r] } }

/-- Price-chart response with success status and a singleton result list
around the given meta object. -/
def mkChartResponse (meta : ChartMeta) : ChartResponse :=
  { status := 200, data := some { result := some [{ meta := some meta }] } }

/-- Example cached price record with current = 100 and dayHigh = 110, as
in the spec's merge example. -/
def exPrice : StockPriceData :=
  { current := some 100, day_high := 110, day_low := 90,
    previous_close := 95, day_volume := some 1000, updated_at := some 5 }

/-- Example decoded frame whose price field is zero, hence omitted from
the JSON view of the protobuf message. -/
def exFrameNoPrice : PricingFrame :=
  { id := "AAPL", price := none, time := some 1700000000000,
    dayHigh := none, dayLow := none, dayVolume := none }

/-- Example decoded frame carrying dayHigh = 115 and nothing else. -/
def exFrame115 : PricingFrame :=
  { id := "AAPL", price := none, time := none, dayHigh := some 115,
    dayLow := none, dayVolume := none }

/-- Example quoteType module. -/
def exQuoteType : QuoteTypeModule :=
  { quoteType := "EQUITY", symbol := "AAPL", longName := some "Apple Inc.",
    shortName := some "Apple", timeZoneFullName := some "America/New_York" }

/-- Example summaryDetail module. -/
def exSummary : SummaryDetail :=
  { currency := some "USD", dayHigh := some 230, dayLow := some 225,
    regularMarketPreviousClose := some 228 }

/-- Example well-formed quote-metadata response. -/
def exQuoteOK : QuoteResponse :=
  mkQuoteResponse exQuoteType exSummary (some { sector := some "Technology" })

/-- Example chart meta with the volume field absent. -/
def exMetaNoVolume : ChartMeta :=
  { fullExchangeName := some "NasdaqGS", exchangeName := some "NMS",
    regularMarketPrice := some 229, regularMarketVolume := none,
    regularMarketTime := some 1700000000 }

/-- Example well-formed price-chart response without a volume field. -/
def exChartNoVolume : ChartResponse := mkChartResponse exMetaNoVolume

/-- Example quote-metadata response with success status and an empty
result list. -/
def exQuoteEmpty : QuoteResponse :=
  { status := 200, data := some { result := some [] } }

/-- Example quote-metadata response with success status and a body whose
quoteSummary member is missing. -/
def exQuoteNullBody : QuoteResponse := { status := 200, data := none }

/-- Example price-chart 404 response with the null result body the
provider sends for unknown symbols. -/
def exChart404 : ChartResponse :=
  { status := 404, data := some { result := none } }

/-- Example initialized instance state. -/
def exState : YFState := { cookie := some "cookie", crumb := some "crumb" }

/-- Example extension state holding the example record. -/
def exExtState : ExtState :=
  { wsOpen := true, hasStatusBar := true
    stockInfo := some
      { type := "EQUITY", symbol := "AAPL", name := "Apple Inc.",
        timezone := "America/New_York", currency := some "USD",
        exchange := some "NasdaqGS", sector := some "Technology",
        price := exPrice } }

/-- The record the main parser produces from exQuoteOK and
exChartNoVolume; note day_volume = some 0 for the absent volume field. -/
def exParsed : StockInformation :=
  { type := "EQUITY", symbol := "AAPL", name := "Apple Inc.",
    timezone := "America/New_York", currency := some "USD",
    exchange := some "NasdaqGS", sector := some "Technology",
    price := { current := some 229, day_high := 230, day_low := 225,
               previous_close := 228, day_volume := some 0,
               updated_at := some 1700000000000 } }

theorem chainQE_of_chainQ (q : QuoteResponse) (l : List QuoteResult)
    (h : chainQ q = some l) : chainQE q = Except.ok l.head? := by
  cases hd : q.data with
  | none => simp [chainQ, hd] at h
  | some b =>
    simp only [chainQ, hd, Option.some_bind] at h
    simp [chainQE, hd, h]

theorem chainPE_of_chainP (p : ChartResponse) (l : List ChartResult)
    (h : chainP p = some l) : chainPE p = Except.ok l.head? := by
  cases hd : p.data with
  | none => simp [chainP, hd] at h
  | some b =>
    simp only [chainP, hd, Option.some_bind] at h
    simp [chainPE, hd, h]

theorem chainQE_error_eq (q : QuoteResponse) (e : JsErr)
    (h : chainQE q = Except.error e) : e = JsErr.typeError := by
  cases hd : q.data with
  | none =>
    simp only [chainQE, hd, jsTypeError] at h
    exact (Except.error.inj h).symm
  | some b =>
    cases hr : b.result with
    | none =>
      simp only [chainQE, hd, hr, jsTypeError] at h
      exact (Except.error.inj h).symm
    | some r =>
      simp only [chainQE, hd, hr] at h
      exact absurd h (by simp)

theorem chainPE_missing (p : ChartResponse) (h : chainP p = none) :
    chainPE p = Except.error JsErr.typeError := by
  cases hd : p.data with
  | none => simp [chainPE, hd, jsTypeError]
  | some b =>
    simp only [chainP, hd, Option.some_bind] at h
    simp [chainPE, hd, h, jsTypeError]

theorem parse_chart_chain_missing (q : QuoteResponse) (p : ChartResponse)
    (h : chainP p = none) :
    parseStockInformation q p = Except.error JsErr.typeError := by
  have hPE := chainPE_missing p h
  cases hQ : chainQE q with
  | error e =>
    rw [chainQE_error_eq q e hQ] at hQ
    simp [parseStockInformation, hQ]
  | ok v => simp [parseStockInformation, hQ, hPE, jsTypeError]

/-- C1.  The claim says every numeric price field is preserved when the
frame carries no value for it, in particular current stays 100 under a
frame with absent/zero price.  The code assigns
`price.current = content.price` unconditionally, so the cached current
becomes the frame's (absent) price, not 100. -/
theorem c1_merge_policy_counterexample :
    (mergeFrame exPrice exFrameNoPrice).current = none
    ∧ (mergeFrame exPrice exFrameNoPrice).current ≠ some 100 := by
  decide

/-- C1 (amended).  The live-feed merge overwrites day_high, day_low and
day_volume only when the frame supplies a non-zero/non-null value and
preserves them otherwise, but overwrites current with the frame's price
field unconditionally and updated_at with the frame's timestamp
unconditionally; previous_close is never touched. -/
theorem c1_merge_policy_amended (ps : StockPriceData) (f : PricingFrame) :
    (mergeFrame ps f).current = f.price
    ∧ (mergeFrame ps f).updated_at = f.time
    ∧ (mergeFrame ps f).previous_close = ps.previous_close
    ∧ ((f.dayHigh = none ∨ f.dayHigh = some 0) →
        (mergeFrame ps f).day_high = ps.day_high)
    ∧ (∀ v : Int, f.dayHigh = some v → v ≠ 0 →
        (mergeFrame ps f).day_high = v)
    ∧ ((f.dayLow = none ∨ f.dayLow = some 0) →
        (mergeFrame ps f).day_low = ps.day_low)
    ∧ (∀ v : Int, f.dayLow = some v → v ≠ 0 →
        (mergeFrame ps f).day_low = v)
    ∧ ((f.dayVolume = none ∨ f.dayVolume = some 0) →
        (mergeFrame ps f).day_volume = ps.day_volume)
    ∧ (∀ v : Int, f.dayVolume = some v → v ≠ 0 →
        (mergeFrame ps f).day_volume = some v) := by
  refine ⟨rfl, rfl, rfl, ?_, ?_, ?_, ?_, ?_, ?_⟩
  · rintro (h | h) <;> simp [mergeFrame, jsOrNum, h]
  · intro v hv hne; simp [mergeFrame, jsOrNum, hv, hne]
  · rintro (h | h) <;> simp [mergeFrame, jsOrNum, h]
  · intro v hv hne; simp [mergeFrame, jsOrNum, hv, hne]
  · rintro (h | h) <;> simp [mergeFrame, jsOrNumN, h]
  · intro v hv hne; simp [mergeFrame, jsOrNumN, hv, hne]

theorem c1_merge_policy_witness :
    (mergeFrame exPrice exFrame115).day_high = 115
    ∧ (mergeFrame exPrice exFrameNoPrice).day_high = 110 :=
  ⟨(c1_merge_policy_amended exPrice exFrame115).2.2.2.2.1 115 rfl
      (by decide),
   (c1_merge_policy_amended exPrice exFrameNoPrice).2.2.2.1 (Or.inl rfl)⟩

/-- C3.  A quote-metadata response with HTTP 404 makes getQuote return
null (NotFound) in both class versions, regardless of the price-chart
response, and no error is raised. -/
theorem c3_metadata_404_notfound (st : YFState) (q : QuoteResponse)
    (p : ChartResponse) (hc : truthyS st.crumb = true)
    (hk : truthyS st.cookie = true) (hq : q.status = 404) :
    getQuote st q p = (st, Except.ok none)
    ∧ getQuoteV st q p = Except.ok none := by
  constructor
  · simp [getQuote, hc, hk, hq]
  · simp [getQuoteV, hc, hk, hq]

theorem c3_metadata_404_witness :
    getQuote exState { status := 404, data := none } exChartNoVolume
      = (exState, Except.ok none) :=
  (c3_metadata_404_notfound exState { status := 404, data := none }
    exChartNoVolume (by decide) (by decide) rfl).1

/-- C6.  When the inbound message fails to decode (malformed base64, or
the binary payload rejected by the protobuf layer), the message handler
catches, logs, and drops the frame: the whole extension state — cached
quote record and connection flag included — is unchanged and the
connection is not closed. -/
theorem c6_decode_failure_keeps_state
    (protoDecode : List Nat → Option PricingFrame)
    (ticker data : String) (st : ExtState)
    (h : (atob data).bind protoDecode = none) :
    handleWsMessage protoDecode ticker data st = st := by
  unfold handleWsMessage
  rw [h]

theorem c6_decode_failure_witness :
    handleWsMessage (fun _ => some exFrame115) "AAPL" "%%%%" exExtState
      = exExtState :=
  c6_decode_failure_keeps_state (fun _ => some exFrame115) "AAPL" "%%%%"
    exExtState (by decide)

theorem processFrame_effect (ticker : String) (f : PricingFrame)
    (st : ExtState) :
    (processFrame ticker f st).wsOpen = st.wsOpen
    ∧ (processFrame ticker f st).hasStatusBar = st.hasStatusBar
    ∧ (processFrame ticker f st).stockInfo.map quoteIdentity
        = st.stockInfo.map quoteIdentity
    ∧ (f.id ≠ ticker → processFrame ticker f st = st) := by
  obtain ⟨w, hb, si⟩ := st
  cases si with
  | none => exact ⟨rfl, rfl, rfl, fun _ => rfl⟩
  | some info =>
    simp only [processFrame]
    split
    · rename_i hc
      refine ⟨rfl, rfl, ?_, ?_⟩
      · simp [quoteIdentity]
      · intro hne; exact absurd hc.2 hne
    · exact ⟨rfl, rfl, rfl, fun _ => rfl⟩

/-- C10.  Handling any inbound frame mutates at most the price sub-record
of the cached quote: the connection flag, the status-bar flag and the
identity fields (type, symbol, name, timezone, currency, exchange,
sector) are preserved by every message, and a decoded frame whose id
differs from the subscribed ticker changes nothing at all. -/
theorem c10_frame_effect (protoDecode : List Nat → Option PricingFrame)
    (ticker data : String) (st : ExtState) :
    (handleWsMessage protoDecode ticker data st).wsOpen = st.wsOpen
    ∧ (handleWsMessage protoDecode ticker data st).hasStatusBar
        = st.hasStatusBar
    ∧ (handleWsMessage protoDecode ticker data st).stockInfo.map
        quoteIdentity = st.stockInfo.map quoteIdentity
    ∧ (∀ f, (atob data).bind protoDecode = some f → f.id ≠ ticker →
        handleWsMessage protoDecode ticker data st = st) := by
  unfold handleWsMessage
  cases h : (atob data).bind protoDecode with
  | none => simp
  | some f =>
    have hp := processFrame_effect ticker f st
    refine ⟨hp.1, hp.2.1, hp.2.2.1, ?_⟩
    intro f2 hf2 hne
    obtain rfl : f2 = f := (Option.some.inj hf2).symm
    exact hp.2.2.2 hne

theorem c10_frame_effect_witness :
    handleWsMessage (fun _ => some { exFrame115 with id := "MSFT" })
      "AAPL" "QUJD" exExtState = exExtState :=
  (c10_frame_effect (fun _ => some { exFrame115 with id := "MSFT" })
      "AAPL" "QUJD" exExtState).2.2.2
    { exFrame115 with id := "MSFT" } (by decide) (by decide)

/-- C2.  The claim says success statuses with an empty metadata result
list or a malformed body always fail with the 'Unexpected response
format' FetchError.  On an empty result list the guard passes (an empty
JS array is truthy) and the parser instead fails with a TypeError while
dereferencing result[0].quoteType, so the raised error is not the
FetchError the claim names. -/
theorem c2_empty_result_counterexample :
    parseStockInformationV exQuoteEmpty exChartNoVolume
      = Except.error JsErr.typeError
    ∧ parseStockInformationV exQuoteEmpty exChartNoVolume
      ≠ Except.error JsErr.formatErr := by
  decide

/-- C2 (amended).  Under success statuses, a missing result chain on
either response fails with Error('Unexpected response format'), while a
present but empty metadata result list passes the guard and fails with a
TypeError at result[0]; in both situations getQuote rethrows a hard error
('Failed to fetch quote') and never returns the NotFound/null outcome. -/
theorem c2_malformed_snapshot_amended (st : YFState) (q : QuoteResponse)
    (p : ChartResponse) (hc : truthyS st.crumb = true)
    (hk : truthyS st.cookie = true) (hq : q.status = 200)
    (hp : p.status = 200) :
    ((chainQ q = none ∨ chainP p = none) →
      parseStockInformationV q p = Except.error JsErr.formatErr
      ∧ getQuoteV st q p = Except.error JsErr.fetchQuoteErr)
    ∧ (chainQ q = some [] → (chainP p).isSome = true →
      parseStockInformationV q p = Except.error JsErr.typeError
      ∧ getQuoteV st q p = Except.error JsErr.fetchQuoteErr) := by
  constructor
  · intro hmiss
    have hparse : parseStockInformationV q p
        = Except.error JsErr.formatErr := by
      unfold parseStockInformationV
      rw [if_neg]
      rintro ⟨h1, h2, h3, h4⟩
      rcases hmiss with h | h
      · rw [h] at h2; simp at h2
      · rw [h] at h4; simp at h4
    refine ⟨hparse, ?_⟩
    simp [getQuoteV, hc, hk, hq, hparse]
  · intro hqe hpsome
    obtain ⟨lp, hlp⟩ := Option.isSome_iff_exists.mp hpsome
    have hQ := chainQE_of_chainQ q [] hqe
    have hP := chainPE_of_chainP p lp hlp
    have hparse : parseStockInformationV q p
        = Except.error JsErr.typeError := by
      unfold parseStockInformationV
      rw [if_pos ⟨hq, by rw [hqe]; rfl, hp, hpsome⟩]
      rw [hQ, hP]
      rfl
    refine ⟨hparse, ?_⟩
    simp [getQuoteV, hc, hk, hq, hparse]

theorem c2_malformed_snapshot_witness :
    parseStockInformationV exQuoteNullBody exChartNoVolume
      = Except.error JsErr.formatErr
    ∧ parseStockInformationV exQuoteEmpty exChartNoVolume
      = Except.error JsErr.typeError :=
  ⟨((c2_malformed_snapshot_amended exState exQuoteNullBody exChartNoVolume
      (by decide) (by decide) rfl rfl).1 (Or.inl rfl)).1,
   ((c2_malformed_snapshot_amended exState exQuoteEmpty exChartNoVolume
      (by decide) (by decide) rfl rfl).2 rfl (by decide)).1⟩

/-- C4.  The claim says a 404 price-chart response yields NotFound (null).
At a concrete such input, getQuote instead raises a hard error in both
class versions: the variant throws via its 'Failed to fetch quote'
handler after the 'Unexpected response format' guard, and the main
version raises a TypeError while dereferencing the 404 body's null
result. -/
theorem c4_chart_404_counterexample :
    getQuoteV exState exQuoteOK exChart404 = Except.error JsErr.fetchQuoteErr
    ∧ getQuoteV exState exQuoteOK exChart404 ≠ Except.ok none
    ∧ getQuote exState exQuoteOK exChart404
        = (exState, Except.error JsErr.typeError) := by
  decide

/-- C4 (amended).  A price-chart 404 is accepted at the transport level
(validateStatus admits 404), but getQuote then fails during parsing — the
variant with the 'Failed to fetch quote' rethrow of the format error, the
main version with a TypeError whenever the 404 body carries no result
chain — and never returns the NotFound/null outcome. -/
theorem c4_chart_404_amended (st : YFState) (q : QuoteResponse)
    (p : ChartResponse) (hc : truthyS st.crumb = true)
    (hk : truthyS st.cookie = true) (hq : q.status = 200)
    (hp : p.status = 404) :
    getQuoteV st q p = Except.error JsErr.fetchQuoteErr
    ∧ (chainP p = none →
        getQuote st q p = (st, Except.error JsErr.typeError)) := by
  constructor
  · have hparse : parseStockInformationV q p
        = Except.error JsErr.formatErr := by
      unfold parseStockInformationV
      rw [if_neg]
      rintro ⟨h1, h2, h3, h4⟩
      rw [hp] at h3
      simp at h3
    simp [getQuoteV, hc, hk, hq, hparse]
  · intro hmiss
    have hparse := parse_chart_chain_missing q p hmiss
    simp [getQuote, hc, hk, hq, hparse, Except.map]

theorem c4_chart_404_witness :
    getQuoteV exState exQuoteEmpty exChart404
      = Except.error JsErr.fetchQuoteErr
    ∧ getQuote exState exQuoteEmpty exChart404
      = (exState, Except.error JsErr.typeError) :=
  ⟨(c4_chart_404_amended exState exQuoteEmpty exChart404 (by decide)
      (by decide) rfl rfl).1,
   (c4_chart_404_amended exState exQuoteEmpty exChart404 (by decide)
      (by decide) rfl rfl).2 rfl⟩

theorem requestAux_count_le {ρ : Type} (outs : Nat → AttemptOutcome ρ) :
    ∀ (fuel i : Nat), (requestAux outs i fuel).2 ≤ fuel := by
  intro fuel
  induction fuel with
  | zero => intro i; simp [requestAux]
  | succ n ih =>
    intro i
    cases h : outs i with
    | ok r => simp [requestAux, h]
    | netFail b =>
      cases b with
      | true =>
        simp only [requestAux, h]
        exact Nat.succ_le_succ (ih (i + 1))
      | false => simp [requestAux, h]

/-- C5.  The snapshot request loop issues at most 3 transport attempts;
when every attempt throws a transient fault (and the interleaved
re-bootstrap succeeds) it makes exactly 3 attempts and surfaces the
single consolidated 'Failed to fetch data after multiple attempts'
error; a delivered response — a 404 NotFound response included, since
validateStatus admits it — returns immediately after one attempt and is
never retried.  Malformed-payload errors arise in parsing, after the
loop has already returned, so they are structurally unretried. -/
theorem c5_retry_policy (ρ : Type) (outs : Nat → AttemptOutcome ρ) :
    (request outs).2 ≤ 3
    ∧ ((∀ i, i < 3 → outs i = AttemptOutcome.netFail true) →
        request outs = (Except.error JsErr.consolidatedErr, 3))
    ∧ (∀ r : ρ, outs 0 = AttemptOutcome.ok r →
        request outs = (Except.ok r, 1)) := by
  refine ⟨requestAux_count_le outs 3 0, ?_, ?_⟩
  · intro h
    have h0 := h 0 (by decide)
    have h1 := h 1 (by decide)
    have h2 := h 2 (by decide)
    simp [request, requestAux, h0, h1, h2]
  · intro r h0
    simp [request, requestAux, h0]

theorem c5_retry_policy_witness :
    request
      (fun _ => (AttemptOutcome.netFail true : AttemptOutcome QuoteResponse))
      = (Except.error JsErr.consolidatedErr, 3) :=
  (c5_retry_policy QuoteResponse (fun _ => AttemptOutcome.netFail true)).2.1
    (fun _ _ => rfl)

theorem fetchCrumb_ok_body (cookie : Option String) (r : CrumbResponse)
    (s : String) (h : fetchCrumb cookie r = Except.ok s) : s = r.body := by
  unfold fetchCrumb at h
  split at h
  · split at h
    · exact (Except.ok.inj h).symm
    · exact absurd h (by simp)
  · exact absurd h (by simp)

/-- C9.  getQuote throws the not-initialized error and leaves the
instance state unchanged whenever cookie or crumb is null or the empty
string (both are falsy to the JS guard), and in particular after an
initialize() run that completed without error but stored an empty crumb
body, every getQuote call throws. -/
theorem c9_not_initialized (st : YFState) (q : QuoteResponse)
    (p : ChartResponse)
    (h : truthyS st.crumb = false ∨ truthyS st.cookie = false) :
    getQuote st q p = (st, Except.error JsErr.notInitializedErr)
    ∧ getQuoteV st q p = Except.error JsErr.notInitializedErr
    ∧ (∀ (st0 st1 : YFState) (cr : CookieResponse) (cb : CrumbResponse),
        initializeInstance st0 cr cb = (st1, none) → cb.body = "" →
        getQuote st1 q p = (st1, Except.error JsErr.notInitializedErr)) := by
  have hng : ¬(truthyS st.crumb = true ∧ truthyS st.cookie = true) := by
    rcases h with h | h <;> simp [h]
  refine ⟨?_, ?_, ?_⟩
  · simp [getQuote, hng]
  · simp [getQuoteV, hng]
  · intro st0 st1 cr cb hinit hbody
    cases hck : fetchCookie cr with
    | error e => simp [initializeInstance, hck] at hinit
    | ok c =>
      cases hcr : fetchCrumb (some c) cb with
      | error e => simp [initializeInstance, hck, hcr] at hinit
      | ok cm =>
        have hcm := fetchCrumb_ok_body (some c) cb cm hcr
        simp only [initializeInstance, hck, hcr, Prod.mk.injEq] at hinit
        obtain ⟨hst1, _⟩ := hinit
        subst hst1
        simp [getQuote, truthyS, hcm, hbody]

theorem c9_not_initialized_witness :
    getQuote { cookie := some "cookie", crumb := some "" } exQuoteOK
        exChartNoVolume
      = ({ cookie := some "cookie", crumb := some "" },
          Except.error JsErr.notInitializedErr) :=
  (c9_not_initialized { cookie := some "cookie", crumb := some "" }
      exQuoteOK exChartNoVolume (Or.inl (by decide))).1

theorem parse_mk_eq (qt : QuoteTypeModule) (sd : SummaryDetail)
    (ap : Option AssetProfile) (meta : ChartMeta) :
    parseStockInformation (mkQuoteResponse qt sd ap) (mkChartResponse meta)
      = Except.ok
      { type := qt.quoteType
        symbol := qt.symbol
        name := jsOrStr qt.longName (jsOrStr qt.shortName "")
        timezone := jsOrStr qt.timeZoneFullName ""
        currency := jsOrStrN sd.currency none
        exchange := jsOrStrN meta.fullExchangeName
          (jsOrStrN meta.exchangeName none)
        sector :=
          match ap with
          | some a => jsOrStrN a.sector none
          | none => none
        price :=
          { current := some (jsOrNum meta.regularMarketPrice 0)
            day_high := jsOrNum sd.dayHigh 0
            day_low := jsOrNum sd.dayLow 0
            previous_close := jsOrNum sd.regularMarketPreviousClose 0
            day_volume := some (jsOrNum meta.regularMarketVolume 0)
            updated_at := meta.regularMarketTime.map (fun t => t * 1000) } }
    := rfl

/-- C7.  The claim says an absent chart volume yields a null dayVolume.
At a concrete input with the volume field absent, the parsed record's
day_volume is the number 0 (from the JS `|| 0` fallback), not null. -/
theorem c7_day_volume_counterexample :
    (parseStockInformation exQuoteOK exChartNoVolume).map
        (fun si => si.price.day_volume) = Except.ok (some 0)
    ∧ (parseStockInformation exQuoteOK exChartNoVolume).map
        (fun si => si.price.day_volume) ≠ Except.ok none := by
  decide

/-- C7 (amended).  On a well-formed snapshot each field follows its
falsy-fallback chain independently: name is longName else shortName else
the empty string; exchange is the chart's full exchange name, else the
short exchange name, else null; sector is the profile sector, else null;
and dayVolume is the chart metadata volume, else 0 — an absent volume
yields the number 0, never null. -/
theorem c7_field_fallbacks_amended (qt : QuoteTypeModule)
    (sd : SummaryDetail) (ap : Option AssetProfile) (meta : ChartMeta)
    (si : StockInformation)
    (h : parseStockInformation (mkQuoteResponse qt sd ap)
          (mkChartResponse meta) = Except.ok si) :
    (∀ s, qt.longName = some s → s ≠ "" → si.name = s)
    ∧ ((qt.longName = none ∨ qt.longName = some "") →
        ∀ s, qt.shortName = some s → s ≠ "" → si.name = s)
    ∧ ((qt.longName = none ∨ qt.longName = some "") →
        (qt.shortName = none ∨ qt.shortName = some "") → si.name = "")
    ∧ (∀ s, meta.fullExchangeName = some s → s ≠ "" →
        si.exchange = some s)
    ∧ ((meta.fullExchangeName = none ∨ meta.fullExchangeName = some "") →
        ∀ s, meta.exchangeName = some s → s ≠ "" → si.exchange = some s)
    ∧ ((meta.fullExchangeName = none ∨ meta.fullExchangeName = some "") →
        (meta.exchangeName = none ∨ meta.exchangeName = some "") →
        si.exchange = none)
    ∧ (ap = none → si.sector = none)
    ∧ (∀ a, ap = some a → (a.sector = none ∨ a.sector = some "") →
        si.sector = none)
    ∧ (∀ a s, ap = some a → a.sector = some s → s ≠ "" →
        si.sector = some s)
    ∧ (∀ v : Int, meta.regularMarketVolume = some v → v ≠ 0 →
        si.price.day_volume = some v)
    ∧ ((meta.regularMarketVolume = none ∨ meta.regularMarketVolume = some 0)
        → si.price.day_volume = some 0) := by
  have hsi := Except.ok.inj ((parse_mk_eq qt sd ap meta).symm.trans h)
  subst hsi
  refine ⟨?_, ?_, ?_, ?_, ?_, ?_, ?_, ?_, ?_, ?_, ?_⟩
  · intro s hs hne; simp [jsOrStr, hs, hne]
  · rintro (h1 | h1) s hs hne <;> simp [jsOrStr, h1, hs, hne]
  · rintro (h1 | h1) (h2 | h2) <;> simp [jsOrStr, h1, h2]
  · intro s hs hne; simp [jsOrStrN, hs, hne]
  · rintro (h1 | h1) s hs hne <;> simp [jsOrStrN, h1, hs, hne]
  · rintro (h1 | h1) (h2 | h2) <;> simp [jsOrStrN, h1, h2]
  · intro ha; simp [ha]
  · rintro a ha (h1 | h1) <;> simp [ha, jsOrStrN, h1]
  · intro a s ha hs hne; simp [ha, jsOrStrN, hs, hne]
  · intro v hv hne; simp [jsOrNum, hv, hne]
  · rintro (h1 | h1) <;> simp [jsOrNum, h1]

theorem c7_field_fallbacks_witness :
    StockInformation.name exParsed = "Apple Inc."
    ∧ StockPriceData.day_volume (StockInformation.price exParsed)
      = some 0 :=
  ⟨(c7_field_fallbacks_amended exQuoteType exSummary
      (some { sector := some "Technology" }) exMetaNoVolume exParsed
      (by decide)).1 "Apple Inc." rfl (by decide),
   (c7_field_fallbacks_amended exQuoteType exSummary
      (some { sector := some "Technology" }) exMetaNoVolume exParsed
      (by decide)).2.2.2.2.2.2.2.2.2.2 (Or.inl rfl)⟩

theorem count_true_le_one (l : List Bool)
    (h : ∀ j k, l.get? j = some true → l.get? k = some true → j = k) :
    l.count true ≤ 1 := by
  induction l with
  | nil => simp
  | cons b t ih =>
    cases b with
    | false =>
      rw [List.count_cons_of_ne (by decide)]
      refine ih (fun j k hj hk => ?_)
      have := h (j + 1) (k + 1) (by simpa using hj) (by simpa using hk)
      omega
    | true =>
      have ht : true ∉ t := by
        intro hmem
        obtain ⟨n, hn⟩ := List.mem_iff_get?.mp hmem
        have := h (n + 1) 0 (by simpa using hn) (by simp)
        omega
      rw [List.count_cons_self, List.count_eq_zero_of_not_mem ht]

theorem feedInv_subscribe (st : FeedState) (h : FeedInv st) :
    FeedInv (subscribeFeed st) := by
  obtain ⟨h1, h2⟩ := h
  unfold subscribeFeed closeAt
  cases hws : st.ws with
  | none =>
    refine ⟨?_, ?_⟩
    · intro j hj
      rcases Nat.lt_trichotomy j st.conns.length with hlt | heq | hgt
      · rw [List.get?_append hlt] at hj
        have := h1 j hj
        rw [hws] at this
        exact absurd this (by simp)
      · simp [heq]
      · rw [List.get?_len_le (by simp; omega)] at hj
        exact absurd hj (by simp)
    · intro i hi
      have : i = st.conns.length := by simpa using hi.symm
      simp [this]
  | some i0 =>
    have hrange := h2 i0 hws
    refine ⟨?_, ?_⟩
    · intro j hj
      rcases Nat.lt_trichotomy j (st.conns.set i0 false).length
        with hlt | heq | hgt
      · rw [List.get?_append hlt] at hj
        by_cases hji : j = i0
        · subst hji
          rw [List.get?_set_eq_of_lt false hrange] at hj
          simp at hj
        · rw [List.get?_set_ne false st.conns (Ne.symm hji)] at hj
          have := h1 j hj
          rw [hws] at this
          exact absurd (Option.some.inj this).symm hji
      · simp [heq]
      · rw [List.get?_len_le (by simp at hgt ⊢; omega)] at hj
        exact absurd hj (by simp)
    · intro i hi
      have : i = (st.conns.set i0 false).length := by simpa using hi.symm
      simp [this]

theorem feedInv_dispose (st : FeedState) (h : FeedInv st) :
    FeedInv (disposeFeed st) := by
  obtain ⟨h1, h2⟩ := h
  unfold disposeFeed closeAt
  cases hws : st.ws with
  | none => exact ⟨h1, h2⟩
  | some i0 =>
    refine ⟨?_, ?_⟩
    · intro j hj
      by_cases hji : j = i0
      · subst hji
        rfl
      · rw [List.get?_set_ne false st.conns (Ne.symm hji)] at hj
        have := h1 j hj
        rw [hws] at this
        exact this
    · intro i hi
      have hi2 : st.ws = some i := by rw [hws]; exact hi
      have := h2 i hi2
      simpa using this

theorem feedInv_remoteClose (st : FeedState) (k : Nat) (h : FeedInv st) :
    FeedInv (remoteCloseFeed st k) := by
  obtain ⟨h1, h2⟩ := h
  unfold remoteCloseFeed closeAt
  refine ⟨?_, ?_⟩
  · intro j hj
    by_cases hjk : j = k
    · subst hjk
      rcases Nat.lt_or_ge j st.conns.length with hlt | hge
      · rw [List.get?_set_eq_of_lt false hlt] at hj
        simp at hj
      · rw [List.get?_len_le (by simpa using hge)] at hj
        exact absurd hj (by simp)
    · rw [List.get?_set_ne false st.conns (Ne.symm hjk)] at hj
      exact h1 j hj
  · intro i hi
    have := h2 i hi
    simpa using this

theorem feedInv_step (st : FeedState) (op : FeedOp) (h : FeedInv st) :
    FeedInv (stepFeed st op) := by
  cases op with
  | subscribe => exact feedInv_subscribe st h
  | dispose => exact feedInv_dispose st h
  | remoteClose i => exact feedInv_remoteClose st i h

theorem feedInv_init : FeedInv initFeed := by
  refine ⟨?_, ?_⟩
  · intro j hj; simp [initFeed] at hj
  · intro i hi; simp [initFeed] at hi

theorem feedInv_run (ops : List FeedOp) : FeedInv (runFeed ops) := by
  unfold runFeed
  have h : ∀ st : FeedState, FeedInv st →
      FeedInv (List.foldl stepFeed st ops) := by
    induction ops with
    | nil => intro st h; simpa using h
    | cons op rest ih =>
      intro st h
      rw [List.foldl_cons]
      exact ih (stepFeed st op) (feedInv_step st op h)
  exact h initFeed feedInv_init

/-- C8.  From the initial state, along any sequence of subscribe calls,
dispose calls and remote closes, the instance never holds two
simultaneously open connections; and a subscribe call issued while a
connection is referenced marks that connection closed in the resulting
state, before the new one (appended open) is referenced. -/
theorem c8_single_connection (ops : List FeedOp) :
    openCount (runFeed ops) ≤ 1
    ∧ (∀ (st : FeedState) (i : Nat), st.ws = some i →
        i < st.conns.length →
        (subscribeFeed st).conns.get? i = some false) := by
  constructor
  · obtain ⟨h1, _⟩ := feedInv_run ops
    apply count_true_le_one
    intro j k hj hk
    have hj2 := h1 j hj
    have hk2 := h1 k hk
    rw [hj2] at hk2
    exact Option.some.inj hk2
  · intro st i hws hlen
    have hsub : subscribeFeed st
        = { conns := (st.conns.set i false) ++ [true],
            ws := some (st.conns.set i false).length } := by
      unfold subscribeFeed closeAt
      rw [hws]
    rw [hsub]
    rw [List.get?_append (by simpa using hlen)]
    exact List.get?_set_eq_of_lt false hlen

theorem c8_single_connection_witness :
    (subscribeFeed { conns := [true], ws := some 0 }).conns.get? 0
      = some false :=
  (c8_single_connection []).2 { conns := [true], ws := some 0 } 0 rfl
    (by decide)

end StockPulse
